import Mathlib

/-!
Verification of the RMV MCP server service layer (`rmv_service.py`).

The embedding models Python JSON values, the dictionary operations the
service uses (`get` with default, `in`, subscription, in-place update),
exceptions (IndexError on list subscription, AttributeError when `.get`
is called on a non-dict, ...), and the three operations of `RMVService`:
`rmv_api_call`, `search_stations` and `get_connections`.  Fallible code
is embedded in `Except PyErr`.
-/

set_option autoImplicit false

namespace RMV

/-- Python/JSON values.  Numbers are modelled as integers; none of the
numeric fields the service touches is computed with, they are passed
through. -/
inductive Json where
  | null : Json
  | bool : Bool → Json
  | num : Int → Json
  | str : String → Json
  | arr : List Json → Json
  | obj : List (String × Json) → Json
deriving Repr

/-- Python runtime exceptions that the service code can raise. -/
inductive PyErr where
  | indexError : PyErr
  | keyError : PyErr
  | typeError : PyErr
  | attributeError : PyErr
deriving Repr, DecidableEq

/-- A Python dict with string keys: an insertion-ordered association list. -/
abbrev Dict := List (String × Json)

/-- First-match lookup in a dict, `None` when the key is absent. -/
def Dict.lookup? (d : Dict) (k : String) : Option Json :=
  match d with
  | [] => none
  | (k', v) :: rest => if k' = k then some v else Dict.lookup? rest k

/-- Key membership in a dict (`k in d`). -/
def Dict.hasKey (d : Dict) (k : String) : Bool :=
  match d with
  | [] => false
  | (k', _) :: rest => if k' = k then true else Dict.hasKey rest k

/-- In-place update `d[k] = v`: replace the value if the key exists
(keeping its position), otherwise append the new pair, as Python dicts do. -/
def Dict.set (d : Dict) (k : String) (v : Json) : Dict :=
  match d with
  | [] => [(k, v)]
  | (k', v') :: rest =>
      if k' = k then (k', v) :: rest else (k', v') :: Dict.set rest k v

/-- Python truthiness of a JSON value: `None`, `False`, `0`, `""` and the
empty containers are falsy. -/
def pyTruthy (j : Json) : Bool :=
  match j with
  | .null => false
  | .bool b => b
  | .num n => n != 0
  | .str s => s ≠ ""
  | .arr l => !l.isEmpty
  | .obj fs => !fs.isEmpty

/-- Python `x.get(k, default)`: defined on dicts, an AttributeError on
every other value. -/
def pyGetD (j : Json) (k : String) (default : Json) : Except PyErr Json :=
  match j with
  | .obj fs => .ok ((Dict.lookup? fs k).getD default)
  | _ => .error .attributeError

/-- Python `k in x` for a string `k`: key membership for dicts, element
membership for lists, substring test for strings, TypeError otherwise. -/
def pyContains (j : Json) (k : String) : Except PyErr Bool :=
  match j with
  | .obj fs => .ok (Dict.hasKey fs k)
  | .arr l => .ok (l.any (fun e => match e with | .str s => s = k | _ => false))
  | .str s => .ok ((s.splitOn k).length ≠ 1)
  | _ => .error .typeError

/-- Python string-key subscription `x[k]`: dict lookup raising KeyError
when absent, TypeError on every other value. -/
def pyGetItemStr (j : Json) (k : String) : Except PyErr Json :=
  match j with
  | .obj fs =>
      match Dict.lookup? fs k with
      | some v => .ok v
      | none => .error .keyError
  | _ => .error .typeError

/-- Python index normalization: a negative index counts from the end of
a sequence of the given length. -/
def pyNormIdx (i : Int) (len : Nat) : Int :=
  if i < 0 then i + len else i

/-- Python integer subscription `x[i]` with negative-index wraparound:
defined on lists, IndexError when out of range, TypeError otherwise. -/
def pyIndex (j : Json) (i : Int) : Except PyErr Json :=
  match j with
  | .arr l =>
      if pyNormIdx i l.length < 0 then .error .indexError
      else
        match l.get? (pyNormIdx i l.length).toNat with
        | some v => .ok v
        | none => .error .indexError
  | _ => .error .typeError

/-- Python iteration `for x in j`: lists yield their elements, dicts their
keys, strings their characters; every other value raises TypeError. -/
def pyIter (j : Json) : Except PyErr (List Json) :=
  match j with
  | .arr l => .ok l
  | .obj fs => .ok (fs.map (fun kv => Json.str kv.1))
  | .str s => .ok (s.toList.map (fun c => Json.str (String.singleton c)))
  | _ => .error .typeError

/-- The single-quote character used by Python repr of strings. -/
def sq : String := String.singleton (Char.ofNat 39)

mutual
/-- Python `repr` of a JSON value, as produced by `str(...)` on a dict:
`None`/`True`/`False`, single-quoted strings, bracketed lists and
brace-delimited dicts. -/
def pyRepr : Json → String
  | .null => "None"
  | .bool true => "True"
  | .bool false => "False"
  | .num n => toString n
  | .str s => sq ++ s ++ sq
  | .arr l => "[" ++ pyReprList l ++ "]"
  | .obj fs => "\x7b" ++ pyReprFields fs ++ "\x7d"

/-- Comma-separated reprs of the elements of a list. -/
def pyReprList : List Json → String
  | [] => ""
  | [x] => pyRepr x
  | x :: rest => pyRepr x ++ ", " ++ pyReprList rest

/-- Comma-separated `'key': value` reprs of the fields of a dict. -/
def pyReprFields : List (String × Json) → String
  | [] => ""
  | [(k, v)] => sq ++ k ++ sq ++ ": " ++ pyRepr v
  | (k, v) :: rest => sq ++ k ++ sq ++ ": " ++ pyRepr v ++ ", " ++ pyReprFields rest
end

/-- Python `str(...)` of a value as interpolated by an f-string: strings
are rendered verbatim, everything else via repr. -/
def pyStrVal (j : Json) : String :=
  match j with
  | .str s => s
  | _ => pyRepr j

/-- Python `a or b` for `a : Optional[str]`: `None` and the empty string
are falsy, so they select `b`; a non-empty string selects itself. -/
def pyOrStr (a : Option String) (b : String) : String :=
  match a with
  | none => b
  | some s => if s = "" then b else s

/-- Outcome of the single HTTP GET performed by `rmv_api_call`: a parsed
JSON body, an `httpx.HTTPError`, or any other exception. -/
inductive NetOutcome where
  | success : Json → NetOutcome
  | httpError : String → NetOutcome
  | otherError : String → NetOutcome

/-- The network: what one GET to a given endpoint with given query
parameters produces. -/
abbrev Net := String → Dict → NetOutcome

/-- Credential resolution performed in `RMVService.__init__`:
`api_key or os.getenv("RMV_API_KEY", "did you set the RMV_API_KEY environment variable?")`.
The environment variable is `some v` when set (possibly to the empty
string) and `none` when unset. -/
def init_api_key (api_key : String) (env_rmv_api_key : Option String) : String :=
  if api_key = "" then
    env_rmv_api_key.getD "did you set the RMV_API_KEY environment variable?"
  else api_key

/-- Embedding of `RMVService.rmv_api_call` (rmv_service.py lines 26-41),
first half: the two `params[...] = ...` statements mutate the
caller-supplied dict in place, so the updated dict is what the network
request carries and also what the caller holds afterwards.  The
try/except around the GET converts `httpx.HTTPError` into an
`API request failed` error dict and any other exception into an
`Unexpected error` dict. -/
def rmv_api_mutated_params (api_key : String) (params : Dict) : Dict :=
  Dict.set (Dict.set params "accessId" (Json.str api_key)) "format"
    (Json.str "json")

/-- Continuation of `rmv_api_call`: the dict object the caller passed in
(as mutated above) paired with the classified outcome of the GET. -/
def rmv_api_call (api_key : String) (net : Net) (endpoint : String)
    (params : Dict) : Dict × Json :=
  (rmv_api_mutated_params api_key params,
   match net endpoint (rmv_api_mutated_params api_key params) with
   | .success body => body
   | .httpError e => Json.obj [("error", Json.str ("API request failed: " ++ e))]
   | .otherError e => Json.obj [("error", Json.str ("Unexpected error: " ++ e))])

/-- One StationRecord (rmv_service.py lines 74-82): the dict appended to
`stations` for a location entry whose `StopLocation` sub-object is
`stop`.  Each field is a `.get` with default `None` except `products`,
which defaults to the empty list. -/
def station_record (stop : Json) : Except PyErr Json :=
  match pyGetD stop "extId" .null with
  | .error e => .error e
  | .ok idv =>
  match pyGetD stop "name" .null with
  | .error e => .error e
  | .ok namev =>
  match pyGetD stop "lat" .null with
  | .error e => .error e
  | .ok latv =>
  match pyGetD stop "lon" .null with
  | .error e => .error e
  | .ok lonv =>
  match pyGetD stop "productAtStop" (.arr []) with
  | .error e => .error e
  | .ok prodv =>
      .ok (Json.obj [("id", idv), ("name", namev), ("latitude", latv),
        ("longitude", lonv), ("products", prodv)])

/-- The `for loc in locations` loop of `search_stations` (lines 70-82):
entries containing a `StopLocation` key contribute one StationRecord, in
order; the others are skipped. -/
def build_stations : List Json → Except PyErr (List Json)
  | [] => .ok []
  | loc :: rest =>
      match pyContains loc "StopLocation" with
      | .error e => .error e
      | .ok false => build_stations rest
      | .ok true =>
          match pyGetItemStr loc "StopLocation" with
          | .error e => .error e
          | .ok stop =>
              match station_record stop with
              | .error e => .error e
              | .ok record =>
                  match build_stations rest with
                  | .error e => .error e
                  | .ok records => .ok (record :: records)

/-- The mapping `search_stations` stringifies on success (line 89):
`\x7b"stations": stations, "count": len(stations)\x7d` built from
`result.get("stopLocationOrCoordLocation", [])`. -/
def search_stations_dict (result : Json) : Except PyErr Json :=
  match pyGetD result "stopLocationOrCoordLocation" (.arr []) with
  | .error e => .error e
  | .ok locations =>
      match pyIter locations with
      | .error e => .error e
      | .ok locList =>
          match build_stations locList with
          | .error e => .error e
          | .ok stations =>
              .ok (Json.obj [("stations", Json.arr stations),
                ("count", Json.num stations.length)])

/-- Embedding of the body of `search_stations` after the upstream call
returns `result` (lines 62-89): the error branch, the missing-container
sentinel, and the projection. -/
def search_stations_body (result : Json) : Except PyErr String :=
  match pyContains result "error" with
  | .error e => .error e
  | .ok true =>
      match pyGetItemStr result "error" with
      | .error e => .error e
      | .ok v => .ok ("Error: " ++ pyStrVal v)
  | .ok false =>
      match pyContains result "stopLocationOrCoordLocation" with
      | .error e => .error e
      | .ok false => .ok "No stations found"
      | .ok true =>
          match search_stations_dict result with
          | .error e => .error e
          | .ok d => .ok (pyRepr d)

/-- Embedding of `RMVService.search_stations` (lines 43-89): builds the
request parameters, delegates to `rmv_api_call` on endpoint
`location.name`, and projects the result. -/
def search_stations (api_key : String) (net : Net) (query : String)
    (max_results : Int) : Except PyErr String :=
  let params : Dict :=
    [("input", Json.str query), ("maxNo", Json.num max_results),
     ("type", Json.str "S")]
  let callResult := rmv_api_call api_key net "location.name" params
  search_stations_body callResult.2

/-- The chained access `j.get(k1, \x7b\x7d).get(k2)` used throughout leg
processing: the first `.get` defaults to an empty dict, the second to
`None`. -/
def pyGetChain (j : Json) (k1 : String) (k2 : String) : Except PyErr Json :=
  match pyGetD j k1 (.obj []) with
  | .error e => .error e
  | .ok v => pyGetD v k2 .null

/-- One LegRecord (rmv_service.py lines 134-143): the `leg_info` dict
built for one entry of `LegList.Leg`. -/
def leg_record (leg : Json) : Except PyErr Json :=
  match pyGetD leg "type" .null with
  | .error e => .error e
  | .ok typev =>
  match pyGetD leg "name" .null with
  | .error e => .error e
  | .ok namev =>
  match pyGetD leg "direction" .null with
  | .error e => .error e
  | .ok dirv =>
  match pyGetChain leg "Origin" "name" with
  | .error e => .error e
  | .ok originv =>
  match pyGetChain leg "Destination" "name" with
  | .error e => .error e
  | .ok destv =>
  match pyGetChain leg "Origin" "time" with
  | .error e => .error e
  | .ok depv =>
  match pyGetChain leg "Destination" "time" with
  | .error e => .error e
  | .ok arrv =>
  match pyGetChain leg "Origin" "track" with
  | .error e => .error e
  | .ok platv =>
  .ok (Json.obj [("type", typev), ("name", namev), ("direction", dirv),
    ("origin", originv), ("destination", destv), ("departure", depv),
    ("arrival", arrv), ("platform", platv)])

/-- The inner `for leg in ...` loop (lines 133-144): one LegRecord per
leg entry, in order; the first exception aborts the call. -/
def build_legs : List Json → Except PyErr (List Json)
  | [] => .ok []
  | leg :: rest =>
      match leg_record leg with
      | .error e => .error e
      | .ok record =>
          match build_legs rest with
          | .error e => .error e
          | .ok records => .ok (record :: records)

/-- One TripRecord (lines 130-151): the legs are projected first, then
`duration` and `chg` are read (the transfer count defaults to 0). -/
def trip_record (trip : Json) : Except PyErr Json :=
  match pyGetD trip "LegList" (.obj []) with
  | .error e => .error e
  | .ok legListObj =>
  match pyGetD legListObj "Leg" (.arr []) with
  | .error e => .error e
  | .ok legJson =>
  match pyIter legJson with
  | .error e => .error e
  | .ok legEntries =>
  match build_legs legEntries with
  | .error e => .error e
  | .ok legs =>
  match pyGetD trip "duration" .null with
  | .error e => .error e
  | .ok durv =>
  match pyGetD trip "chg" (.num 0) with
  | .error e => .error e
  | .ok chgv =>
  .ok (Json.obj [("duration", durv), ("transfers", chgv),
    ("legs", Json.arr legs)])

/-- The outer `for trip in result.get("Trip", [])` loop (lines 129-151). -/
def build_trips : List Json → Except PyErr (List Json)
  | [] => .ok []
  | trip :: rest =>
      match trip_record trip with
      | .error e => .error e
      | .ok record =>
          match build_trips rest with
          | .error e => .error e
          | .ok records => .ok (record :: records)

/-- The top-level `origin` expression (lines 155-159):
`result.get("Trip", [\x7b\x7d])[0].get("LegList", \x7b\x7d).get("Leg", [\x7b\x7d])[0].get("Origin", \x7b\x7d).get("name")`.
Note the defaults are singleton lists of an empty dict, but when the key
is present its actual (possibly empty) list is subscripted. -/
def first_trip_origin_name (result : Json) : Except PyErr Json :=
  match pyGetD result "Trip" (.arr [.obj []]) with
  | .error e => .error e
  | .ok trips =>
  match pyIndex trips 0 with
  | .error e => .error e
  | .ok t0 =>
  match pyGetD t0 "LegList" (.obj []) with
  | .error e => .error e
  | .ok legListObj =>
  match pyGetD legListObj "Leg" (.arr [.obj []]) with
  | .error e => .error e
  | .ok legs =>
  match pyIndex legs 0 with
  | .error e => .error e
  | .ok l0 =>
  pyGetChain l0 "Origin" "name"

/-- The guarded `destination` expression (lines 160-164): the same chain
with index -1 and the `Destination` sub-object. -/
def first_trip_destination_name (result : Json) : Except PyErr Json :=
  match pyGetD result "Trip" (.arr [.obj []]) with
  | .error e => .error e
  | .ok trips =>
  match pyIndex trips 0 with
  | .error e => .error e
  | .ok t0 =>
  match pyGetD t0 "LegList" (.obj []) with
  | .error e => .error e
  | .ok legListObj =>
  match pyGetD legListObj "Leg" (.arr [.obj []]) with
  | .error e => .error e
  | .ok legs =>
  match pyIndex legs (-1) with
  | .error e => .error e
  | .ok lz =>
  pyGetChain lz "Destination" "name"

/-- The mapping `get_connections` stringifies on success (lines 153-170):
evaluation follows the source order — the trips loop, then the `origin`
chain, then the truthiness guard `result.get("Trip")` and, if it holds,
the `destination` chain (else `None`). -/
def get_connections_dict (result : Json) : Except PyErr Json :=
  match pyGetD result "Trip" (.arr []) with
  | .error e => .error e
  | .ok tripsJson =>
  match pyIter tripsJson with
  | .error e => .error e
  | .ok tripEntries =>
  match build_trips tripEntries with
  | .error e => .error e
  | .ok trips =>
  match first_trip_origin_name result with
  | .error e => .error e
  | .ok originv =>
  match pyGetD result "Trip" .null with
  | .error e => .error e
  | .ok tripsGuard =>
  match (if pyTruthy tripsGuard then first_trip_destination_name result
         else .ok Json.null) with
  | .error e => .error e
  | .ok destv =>
  .ok (Json.obj [("origin", originv), ("destination", destv),
    ("trips", Json.arr trips), ("count", Json.num trips.length)])

/-- Embedding of the body of `get_connections` after the upstream call
returns `result` (lines 123-170). -/
def get_connections_body (result : Json) : Except PyErr String :=
  match pyContains result "error" with
  | .error e => .error e
  | .ok true =>
      match pyGetItemStr result "error" with
      | .error e => .error e
      | .ok v => .ok ("Error: " ++ pyStrVal v)
  | .ok false =>
      match pyContains result "Trip" with
      | .error e => .error e
      | .ok false => .ok "No connections found"
      | .ok true =>
          match get_connections_dict result with
          | .error e => .error e
          | .ok d => .ok (pyRepr d)

/-- The current local time as captured by `datetime.now()`: only the two
`strftime` projections the code uses are modelled. -/
structure PyDateTime where
  ymd : String
  hm : String

/-- The request parameters built by `get_connections` (lines 112-119).
`time` is `departure_time or now.strftime("%H:%M")`. -/
def get_connections_params (now : PyDateTime) (origin_id : String)
    (destination_id : String) (num_trips : Int)
    (departure_time : Option String) : Dict :=
  [("originExtId", Json.str origin_id),
   ("destExtId", Json.str destination_id),
   ("date", Json.str now.ymd),
   ("time", Json.str (pyOrStr departure_time now.hm)),
   ("numTrips", Json.num num_trips),
   ("searchForArrival", Json.num 0)]

/-- Embedding of `RMVService.get_connections` (lines 91-170): builds the
parameters from the current time and arguments, delegates to
`rmv_api_call` on endpoint `trip`, and projects the result. -/
def get_connections (api_key : String) (net : Net) (now : PyDateTime)
    (origin_id : String) (destination_id : String) (num_trips : Int)
    (departure_time : Option String) : Except PyErr String :=
  let params := get_connections_params now origin_id destination_id
    num_trips departure_time
  let callResult := rmv_api_call api_key net "trip" params
  get_connections_body callResult.2

/-! ## Basic dictionary lemmas -/

theorem Dict.hasKey_eq_isSome (d : Dict) (k : String) :
    Dict.hasKey d k = (Dict.lookup? d k).isSome := by
  induction d with
  | nil => rfl
  | cons kv rest ih =>
      obtain ⟨k', v⟩ := kv
      by_cases h : k' = k <;> simp [Dict.hasKey, Dict.lookup?, h, ih]

theorem Dict.lookup?_set_self (d : Dict) (k : String) (v : Json) :
    Dict.lookup? (Dict.set d k v) k = some v := by
  induction d with
  | nil => simp [Dict.set, Dict.lookup?]
  | cons kv rest ih =>
      obtain ⟨k', v'⟩ := kv
      by_cases h : k' = k <;> simp [Dict.set, Dict.lookup?, h, ih]

theorem Dict.lookup?_set_ne (d : Dict) (k k' : String) (v : Json)
    (h : k' ≠ k) :
    Dict.lookup? (Dict.set d k' v) k = Dict.lookup? d k := by
  induction d with
  | nil => simp [Dict.set, Dict.lookup?, h]
  | cons kv rest ih =>
      obtain ⟨k1, v1⟩ := kv
      have h' : k ≠ k' := Ne.symm h
      by_cases h1 : k1 = k'
      · subst h1; simp [Dict.set, Dict.lookup?, h, h']
      · by_cases h2 : k1 = k <;>
          simp [Dict.set, Dict.lookup?, h1, h2, h', ih]

/-! ## Indexing lemmas -/

theorem pyIndex_zero (x : Json) (xs : List Json) :
    pyIndex (Json.arr (x :: xs)) 0 = .ok x := rfl

theorem pyIndex_last (l : List Json) (x : Json) (h : l.getLast? = some x) :
    pyIndex (Json.arr l) (-1) = .ok x := by
  have hne : l ≠ [] := by rintro rfl; simp at h
  have hpos : 0 < l.length := List.length_pos.mpr hne
  have h1 : pyNormIdx (-1) l.length = (l.length : Int) - 1 := by
    simp only [pyNormIdx, if_pos (show (-1 : Int) < 0 by norm_num)]
    omega
  have h2 : ¬ pyNormIdx (-1) l.length < 0 := by rw [h1]; omega
  have h3 : (pyNormIdx (-1) l.length).toNat = l.length - 1 := by
    rw [h1]; omega
  simp only [pyIndex]
  rw [if_neg h2, h3]
  rw [List.get?_eq_getElem?, List.getElem?_eq_getElem (by omega)]
  have hx : l.getLast hne = x := by
    rw [List.getLast?_eq_getLast_of_ne_nil hne] at h
    exact Option.some_injective _ h
  rw [← hx, List.getLast_eq_getElem]

/-! ## Loop refinement lemmas -/

theorem build_trips_forall2 (l r : List Json) (h : build_trips l = .ok r) :
    List.Forall₂ (fun t record => trip_record t = .ok record) l r := by
  induction l generalizing r with
  | nil =>
      simp only [build_trips] at h
      cases h
      exact List.Forall₂.nil
  | cons t rest ih =>
      simp only [build_trips] at h
      cases htr : trip_record t with
      | error e => rw [htr] at h; cases h
      | ok record =>
          rw [htr] at h
          cases hbr : build_trips rest with
          | error e => rw [hbr] at h; cases h
          | ok records =>
              rw [hbr] at h
              cases h
              exact List.Forall₂.cons htr (ih _ hbr)

theorem build_trips_length (l r : List Json) (h : build_trips l = .ok r) :
    r.length = l.length :=
  (build_trips_forall2 l r h).length_eq.symm

/-! ## Spec-side description of the station projection (for C4) -/

/-- Following the spec wording: an entry of the location list "contains
a `StopLocation` sub-object". -/
def spec_hasStopLocation (loc : Json) : Bool :=
  match loc with
  | .obj fs => (Dict.lookup? fs "StopLocation").isSome
  | _ => false

/-- Following the spec wording: the StationRecord emitted for an entry
whose `StopLocation` sub-object is a mapping — each field read with a
default (`None`, and the empty list for `products`). -/
def spec_stationRecord (loc : Json) : Json :=
  match loc with
  | .obj fs =>
      match Dict.lookup? fs "StopLocation" with
      | some (.obj sfs) =>
          Json.obj [("id", (Dict.lookup? sfs "extId").getD .null),
            ("name", (Dict.lookup? sfs "name").getD .null),
            ("latitude", (Dict.lookup? sfs "lat").getD .null),
            ("longitude", (Dict.lookup? sfs "lon").getD .null),
            ("products", (Dict.lookup? sfs "productAtStop").getD (.arr []))]
      | _ => Json.null
  | _ => Json.null

/-- A location entry is well formed when it is a mapping and its
`StopLocation` value, if any, is a mapping. -/
def wfLocation (loc : Json) : Prop :=
  ∃ fs, loc = Json.obj fs ∧
    ∀ v, Dict.lookup? fs "StopLocation" = some v → ∃ sfs, v = Json.obj sfs

/-- The station loop refines the spec description: on well-formed
entries it succeeds and returns exactly the records of the entries
containing a `StopLocation` sub-object, in source order. -/
theorem build_stations_spec (locs : List Json)
    (hwf : ∀ loc ∈ locs, wfLocation loc) :
    build_stations locs
      = .ok ((locs.filter spec_hasStopLocation).map spec_stationRecord) := by
  induction locs with
  | nil => rfl
  | cons loc rest ih =>
      obtain ⟨fs, rfl, hsub⟩ := hwf _ (List.mem_cons_self _ _)
      have ihr := ih (fun l hl => hwf l (List.mem_cons_of_mem _ hl))
      cases hlk : Dict.lookup? fs "StopLocation" with
      | none =>
          simp only [build_stations, pyContains, Dict.hasKey_eq_isSome, hlk,
            Option.isSome_none, ihr, List.filter_cons,
            spec_hasStopLocation, Bool.false_eq_true, if_false]
      | some v =>
          obtain ⟨sfs, rfl⟩ := hsub v hlk
          simp only [build_stations, pyContains, Dict.hasKey_eq_isSome, hlk,
            Option.isSome_some, pyGetItemStr, station_record, pyGetD, ihr,
            List.filter_cons, spec_hasStopLocation, if_true, List.map_cons,
            spec_stationRecord]

/-- C4: for a response whose location list holds only well-formed
entries, N of them with a `StopLocation` sub-object and the rest
without, the projection returns exactly the N records of those entries
in their source order, skips the others without error, and reports
`count` equal to N. -/
theorem C4_station_projection (fs : Dict) (locs : List Json)
    (herr : Dict.lookup? fs "error" = none)
    (hloc : Dict.lookup? fs "stopLocationOrCoordLocation"
      = some (Json.arr locs))
    (hwf : ∀ loc ∈ locs, wfLocation loc) :
    search_stations_body (Json.obj fs)
      = .ok (pyRepr (Json.obj
          [("stations", Json.arr
              ((locs.filter spec_hasStopLocation).map spec_stationRecord)),
           ("count", Json.num
              ((locs.filter spec_hasStopLocation).map
                spec_stationRecord).length)]))
    ∧ ((locs.filter spec_hasStopLocation).map spec_stationRecord).length
      = (locs.filter spec_hasStopLocation).length := by
  refine ⟨?_, List.length_map _ _⟩
  simp only [search_stations_body, pyContains, Dict.hasKey_eq_isSome, herr,
    Option.isSome_none, hloc, Option.isSome_some, search_stations_dict,
    pyGetD, Option.getD_some, pyIter, build_stations_spec locs hwf]

/-- C4 witness: a concrete payload with two `StopLocation` entries and
one bare-coordinate entry between them. -/
theorem C4_station_projection_witness :
    search_stations_body (Json.obj
      [("stopLocationOrCoordLocation", Json.arr
        [Json.obj [("StopLocation", Json.obj
            [("extId", Json.str "3006907"),
             ("name", Json.str "Bad Vilbel-Dortelweil Bf")])],
         Json.obj [("CoordLocation", Json.obj [])],
         Json.obj [("StopLocation", Json.obj
            [("name", Json.str "Darmstadt Hbf")])]])])
      = .ok (pyRepr (Json.obj
          [("stations", Json.arr
              (([Json.obj [("StopLocation", Json.obj
                    [("extId", Json.str "3006907"),
                     ("name", Json.str "Bad Vilbel-Dortelweil Bf")])],
                 Json.obj [("CoordLocation", Json.obj [])],
                 Json.obj [("StopLocation", Json.obj
                    [("name", Json.str "Darmstadt Hbf")])]].filter
                  spec_hasStopLocation).map spec_stationRecord)),
           ("count", Json.num
              (([Json.obj [("StopLocation", Json.obj
                    [("extId", Json.str "3006907"),
                     ("name", Json.str "Bad Vilbel-Dortelweil Bf")])],
                 Json.obj [("CoordLocation", Json.obj [])],
                 Json.obj [("StopLocation", Json.obj
                    [("name", Json.str "Darmstadt Hbf")])]].filter
                  spec_hasStopLocation).map spec_stationRecord).length)]))
    ∧ (([Json.obj [("StopLocation", Json.obj
            [("extId", Json.str "3006907"),
             ("name", Json.str "Bad Vilbel-Dortelweil Bf")])],
         Json.obj [("CoordLocation", Json.obj [])],
         Json.obj [("StopLocation", Json.obj
            [("name", Json.str "Darmstadt Hbf")])]].filter
          spec_hasStopLocation).map spec_stationRecord).length
      = ([Json.obj [("StopLocation", Json.obj
            [("extId", Json.str "3006907"),
             ("name", Json.str "Bad Vilbel-Dortelweil Bf")])],
         Json.obj [("CoordLocation", Json.obj [])],
         Json.obj [("StopLocation", Json.obj
            [("name", Json.str "Darmstadt Hbf")])]].filter
          spec_hasStopLocation).length :=
  C4_station_projection _ _ rfl rfl (by
    intro loc hl
    simp only [List.mem_cons, List.not_mem_nil, or_false] at hl
    rcases hl with rfl | rfl | rfl
    · exact ⟨_, rfl, fun v hv => ⟨_, (Option.some_injective _ hv).symm⟩⟩
    · exact ⟨_, rfl, fun v hv => Option.noConfusion hv⟩
    · exact ⟨_, rfl, fun v hv => ⟨_, (Option.some_injective _ hv).symm⟩⟩)

/-! ## Claim theorems -/

/-- C1: the claim that get_connections and search_stations never raise —
in particular on a payload whose Trip key maps to the empty list — is
contradicted by the code: on the upstream payload with Trip mapping to
the empty list, the subscription `result.get("Trip", [...])[0]` at the
final projection raises IndexError, which escapes the projector
boundary.  The theorem evaluates the embedded `get_connections` at that
payload, for every key, time, argument tuple. -/
theorem C1_index_error_escapes (key : String) (now : PyDateTime)
    (oid did : String) (nt : Int) (dep : Option String) :
    get_connections key
      (fun _ _ => NetOutcome.success (Json.obj [("Trip", Json.arr [])]))
      now oid did nt dep = .error PyErr.indexError := rfl

/-- C2: the claim that the payload with Trip mapping to the empty list
yields the sentinel "No connections found" is contradicted by the code:
the Trip key is present, so the key-absence check does not fire, and the
final projection raises IndexError; no string at all is returned. -/
theorem C2_empty_trip_raises :
    get_connections_body (Json.obj [("Trip", Json.arr [])])
      = .error PyErr.indexError := rfl

/-- C5: for an upstream transport failure the client produces
"API request failed: msg", for any other failure "Unexpected error: msg",
and both projectors turn either into the returned string
"Error: " followed by that failure message. -/
theorem C5_error_strings (key q : String) (m : Int) (now : PyDateTime)
    (oid did : String) (nt : Int) (dep : Option String) (msg : String) :
    search_stations key (fun _ _ => NetOutcome.httpError msg) q m
      = .ok ("Error: " ++ ("API request failed: " ++ msg))
    ∧ get_connections key (fun _ _ => NetOutcome.httpError msg)
        now oid did nt dep
      = .ok ("Error: " ++ ("API request failed: " ++ msg))
    ∧ search_stations key (fun _ _ => NetOutcome.otherError msg) q m
      = .ok ("Error: " ++ ("Unexpected error: " ++ msg))
    ∧ get_connections key (fun _ _ => NetOutcome.otherError msg)
        now oid did nt dep
      = .ok ("Error: " ++ ("Unexpected error: " ++ msg)) :=
  ⟨rfl, rfl, rfl, rfl⟩

/-- C6 counterexample: the upstream response consisting only of an
`error` field lacks the container key, yet search_stations returns the
error string, not the sentinel, so the claim as stated fails. -/
theorem C6_error_key_beats_sentinel :
    Dict.lookup? [("error", Json.str "boom")] "stopLocationOrCoordLocation"
      = none
    ∧ search_stations_body (Json.obj [("error", Json.str "boom")])
        = .ok "Error: boom"
    ∧ "Error: boom" ≠ "No stations found" :=
  ⟨rfl, rfl, by decide⟩

/-- C6 amended: for every upstream mapping response lacking both the
`error` key and the expected container key, the operation returns the
corresponding sentinel byte-for-byte, and the sentinels do not carry the
"Error: " prefix. -/
theorem C6_sentinels (fs gs : Dict)
    (hf1 : Dict.lookup? fs "error" = none)
    (hf2 : Dict.lookup? fs "stopLocationOrCoordLocation" = none)
    (hg1 : Dict.lookup? gs "error" = none)
    (hg2 : Dict.lookup? gs "Trip" = none) :
    search_stations_body (Json.obj fs) = .ok "No stations found"
    ∧ get_connections_body (Json.obj gs) = .ok "No connections found"
    ∧ "Error: ".data.isPrefixOf "No stations found".data = false
    ∧ "Error: ".data.isPrefixOf "No connections found".data = false := by
  refine ⟨?_, ?_, by decide, by decide⟩
  · simp [search_stations_body, pyContains, Dict.hasKey_eq_isSome, hf1, hf2]
  · simp [get_connections_body, pyContains, Dict.hasKey_eq_isSome, hg1, hg2]

/-- C6 witness at the empty mapping. -/
theorem C6_sentinels_witness :
    search_stations_body (Json.obj []) = .ok "No stations found"
    ∧ get_connections_body (Json.obj []) = .ok "No connections found"
    ∧ "Error: ".data.isPrefixOf "No stations found".data = false
    ∧ "Error: ".data.isPrefixOf "No connections found".data = false :=
  C6_sentinels [] [] rfl rfl rfl rfl

/-- C9: search_stations is a pure function of its query, result bound
and upstream response: two calls with identical parameters against an
identical upstream behaviour return byte-identical values.  The current
time is not among the inputs of the embedded operation, mirroring that
its source never reads the clock. -/
theorem C9_search_stations_idempotent (key : String) (net net' : Net)
    (q q' : String) (m m' : Int)
    (hnet : net = net') (hq : q = q') (hm : m = m') :
    search_stations key net q m = search_stations key net' q' m' := by
  subst hnet; subst hq; subst hm; rfl

/-- C9 witness: two identical concrete calls agree. -/
theorem C9_search_stations_idempotent_witness :
    search_stations "k"
      (fun _ _ => NetOutcome.success (Json.obj [])) "Dortweil" 1
    = search_stations "k"
      (fun _ _ => NetOutcome.success (Json.obj [])) "Dortweil" 1 :=
  C9_search_stations_idempotent "k" _ _ "Dortweil" "Dortweil" 1 1
    rfl rfl rfl

/-- C10: with departure_time the empty string the `time` parameter sent
upstream is the current HH:MM, the whole parameter dict is identical to
the one built when departure_time is None, and a non-empty
departure_time is passed through verbatim. -/
theorem C10_empty_departure_time (now : PyDateTime) (oid did : String)
    (nt : Int) (s : String) (hs : s ≠ "") :
    Dict.lookup? (get_connections_params now oid did nt (some "")) "time"
      = some (Json.str now.hm)
    ∧ get_connections_params now oid did nt (some "")
      = get_connections_params now oid did nt none
    ∧ Dict.lookup? (get_connections_params now oid did nt (some s)) "time"
      = some (Json.str s) := by
  refine ⟨rfl, rfl, ?_⟩
  simp [get_connections_params, Dict.lookup?, pyOrStr, hs]

/-- C10 witness at a concrete time and explicit departure. -/
theorem C10_empty_departure_time_witness :
    Dict.lookup?
      (get_connections_params ⟨"2026-10-12", "09:41"⟩ "a" "b" 3 (some ""))
      "time" = some (Json.str "09:41")
    ∧ get_connections_params ⟨"2026-10-12", "09:41"⟩ "a" "b" 3 (some "")
      = get_connections_params ⟨"2026-10-12", "09:41"⟩ "a" "b" 3 none
    ∧ Dict.lookup?
      (get_connections_params ⟨"2026-10-12", "09:41"⟩ "a" "b" 3
        (some "08:15")) "time" = some (Json.str "08:15") :=
  C10_empty_departure_time ⟨"2026-10-12", "09:41"⟩ "a" "b" 3 "08:15"
    (by decide)

/-- C7: the credential resolved at construction is the explicit argument
when non-empty, else the environment value when the variable is set,
else the placeholder; and every request sent by rmv_api_call carries
accessId equal to the resolved credential and format=json. -/
theorem C7_credential_resolution (arg : String) (h : arg ≠ "")
    (env : Option String) (v : String) (key ep : String) (net : Net)
    (ps : Dict) :
    init_api_key arg env = arg
    ∧ init_api_key "" (some v) = v
    ∧ init_api_key "" none
      = "did you set the RMV_API_KEY environment variable?"
    ∧ Dict.lookup? (rmv_api_call key net ep ps).1 "accessId"
      = some (Json.str key)
    ∧ Dict.lookup? (rmv_api_call key net ep ps).1 "format"
      = some (Json.str "json") := by
  refine ⟨by simp [init_api_key, h], rfl, rfl, ?_, ?_⟩ <;>
  · show Dict.lookup? (rmv_api_call key net ep ps).1 _ = _
    have hfst : (rmv_api_call key net ep ps).1
        = Dict.set (Dict.set ps "accessId" (Json.str key)) "format"
            (Json.str "json") := rfl
    rw [hfst]
    first
    | exact Dict.lookup?_set_self _ _ _
    | rw [Dict.lookup?_set_ne _ _ _ _ (by decide)]
      exact Dict.lookup?_set_self _ _ _

/-- C7 witness at concrete arguments. -/
theorem C7_credential_resolution_witness :
    init_api_key "explicit" (some "envval") = "explicit"
    ∧ init_api_key "" (some "envval") = "envval"
    ∧ init_api_key "" none
      = "did you set the RMV_API_KEY environment variable?"
    ∧ Dict.lookup?
        (rmv_api_call "explicit"
          (fun _ _ => NetOutcome.success (Json.obj [])) "trip" []).1
        "accessId" = some (Json.str "explicit")
    ∧ Dict.lookup?
        (rmv_api_call "explicit"
          (fun _ _ => NetOutcome.success (Json.obj [])) "trip" []).1
        "format" = some (Json.str "json") :=
  C7_credential_resolution "explicit" (by decide) (some "envval")
    "envval" "explicit" "trip" (fun _ _ => NetOutcome.success (Json.obj []))
    []

/-- C8 counterexample: the caller-supplied params mapping is mutated in
place by rmv_api_call; with the empty dict passed in, the dict the
caller holds after the call is the two-entry accessId/format dict, not
the empty dict it supplied. -/
theorem C8_params_mutated :
    (rmv_api_call "k" (fun _ _ => NetOutcome.success (Json.obj []))
        "location.name" []).1
      = [("accessId", Json.str "k"), ("format", Json.str "json")]
    ∧ (rmv_api_call "k" (fun _ _ => NetOutcome.success (Json.obj []))
        "location.name" []).1 ≠ ([] : Dict) := by
  refine ⟨rfl, ?_⟩
  intro hcon
  exact List.cons_ne_nil ("accessId", Json.str "k")
    [("format", Json.str "json")] hcon

/-- C8 amended: rmv_api_call has no effect on the caller beyond the
network call and the in-place update of the params mapping: after the
call the mapping holds accessId = the service key and format = "json",
and every other key is bound exactly as before the call. -/
theorem C8_params_frame (key ep : String) (net : Net) (ps : Dict)
    (k : String) (h1 : k ≠ "accessId") (h2 : k ≠ "format") :
    Dict.lookup? (rmv_api_call key net ep ps).1 k = Dict.lookup? ps k
    ∧ Dict.lookup? (rmv_api_call key net ep ps).1 "accessId"
      = some (Json.str key)
    ∧ Dict.lookup? (rmv_api_call key net ep ps).1 "format"
      = some (Json.str "json") := by
  have hfst : (rmv_api_call key net ep ps).1
      = Dict.set (Dict.set ps "accessId" (Json.str key)) "format"
          (Json.str "json") := rfl
  refine ⟨?_, ?_, ?_⟩ <;> rw [hfst]
  · rw [Dict.lookup?_set_ne _ _ _ _ (Ne.symm h2),
      Dict.lookup?_set_ne _ _ _ _ (Ne.symm h1)]
  · rw [Dict.lookup?_set_ne _ _ _ _ (by decide)]
    exact Dict.lookup?_set_self _ _ _
  · exact Dict.lookup?_set_self _ _ _

/-- C8 amended witness: the frame property at a concrete params dict
holding an unrelated key. -/
theorem C8_params_frame_witness :
    Dict.lookup?
      (rmv_api_call "k" (fun _ _ => NetOutcome.success (Json.obj []))
        "trip" [("input", Json.str "q")]).1 "input"
      = Dict.lookup? [("input", Json.str "q")] "input"
    ∧ Dict.lookup?
      (rmv_api_call "k" (fun _ _ => NetOutcome.success (Json.obj []))
        "trip" [("input", Json.str "q")]).1 "accessId"
      = some (Json.str "k")
    ∧ Dict.lookup?
      (rmv_api_call "k" (fun _ _ => NetOutcome.success (Json.obj []))
        "trip" [("input", Json.str "q")]).1 "format"
      = some (Json.str "json") :=
  C8_params_frame "k" "trip" (fun _ _ => NetOutcome.success (Json.obj []))
    [("input", Json.str "q")] "input" (by decide) (by decide)

/-- C3: for a response with a non-empty Trip list whose entries all
project successfully, the returned mapping holds one TripRecord per
upstream trip entry in upstream order (the Forall₂ conjunct), count
equal to the number of upstream trips, origin equal to Origin.name of
the first leg of the first trip and destination equal to
Destination.name of the last leg of the first trip — the later trips
`ts` are arbitrary, so the endpoints of the result do not depend on
them. -/
theorem C3_connection_projection (fs : Dict) (t0 : Json) (ts : List Json)
    (recs : List Json) (t0f llf : Dict) (l0 : Json) (ls : List Json)
    (l0f origf lzf destf : Dict) (lz ov dv : Json)
    (herr : Dict.lookup? fs "error" = none)
    (htrip : Dict.lookup? fs "Trip" = some (Json.arr (t0 :: ts)))
    (hbuild : build_trips (t0 :: ts) = .ok recs)
    (ht0 : t0 = Json.obj t0f)
    (hll : Dict.lookup? t0f "LegList" = some (Json.obj llf))
    (hleg : Dict.lookup? llf "Leg" = some (Json.arr (l0 :: ls)))
    (hl0 : l0 = Json.obj l0f)
    (ho : Dict.lookup? l0f "Origin" = some (Json.obj origf))
    (hon : Dict.lookup? origf "name" = some ov)
    (hlast : (l0 :: ls).getLast? = some lz)
    (hlz : lz = Json.obj lzf)
    (hd : Dict.lookup? lzf "Destination" = some (Json.obj destf))
    (hdn : Dict.lookup? destf "name" = some dv) :
    get_connections_body (Json.obj fs)
      = .ok (pyRepr (Json.obj [("origin", ov), ("destination", dv),
          ("trips", Json.arr recs), ("count", Json.num recs.length)]))
    ∧ recs.length = (t0 :: ts).length
    ∧ List.Forall₂ (fun t record => trip_record t = .ok record)
        (t0 :: ts) recs := by
  refine ⟨?_, build_trips_length _ _ hbuild, build_trips_forall2 _ _ hbuild⟩
  subst ht0
  subst hl0
  subst hlz
  have horig : first_trip_origin_name (Json.obj fs) = .ok ov := by
    simp only [first_trip_origin_name, pyGetD, htrip, Option.getD_some,
      pyIndex_zero, hll, hleg, pyGetChain, ho, hon]
  have hdest : first_trip_destination_name (Json.obj fs) = .ok dv := by
    simp only [first_trip_destination_name, pyGetD, htrip, Option.getD_some,
      pyIndex_zero, pyIndex_last _ _ hlast, hll, hleg, pyGetChain, hd, hdn]
  simp only [get_connections_body, pyContains, Dict.hasKey_eq_isSome, herr,
    Option.isSome_none, htrip, Option.isSome_some, get_connections_dict,
    pyGetD, Option.getD_some, pyIter, hbuild, horig, hdest, pyTruthy,
    List.isEmpty_cons, Bool.not_false, if_true]

/-- C3 witness: one trip with one leg from O to D. -/
theorem C3_connection_projection_witness :
    get_connections_body (Json.obj [("Trip", Json.arr
      [Json.obj [("LegList", Json.obj [("Leg", Json.arr
        [Json.obj [("Origin", Json.obj [("name", Json.str "O")]),
          ("Destination", Json.obj [("name", Json.str "D")])]])])]])])
      = .ok (pyRepr (Json.obj [("origin", Json.str "O"),
          ("destination", Json.str "D"),
          ("trips", Json.arr [Json.obj [("duration", Json.null),
            ("transfers", Json.num 0),
            ("legs", Json.arr [Json.obj [("type", Json.null),
              ("name", Json.null), ("direction", Json.null),
              ("origin", Json.str "O"), ("destination", Json.str "D"),
              ("departure", Json.null), ("arrival", Json.null),
              ("platform", Json.null)]])]]),
          ("count", Json.num ([Json.obj [("duration", Json.null),
            ("transfers", Json.num 0),
            ("legs", Json.arr [Json.obj [("type", Json.null),
              ("name", Json.null), ("direction", Json.null),
              ("origin", Json.str "O"), ("destination", Json.str "D"),
              ("departure", Json.null), ("arrival", Json.null),
              ("platform", Json.null)]])]] : List Json).length)]))
    ∧ ([Json.obj [("duration", Json.null), ("transfers", Json.num 0),
        ("legs", Json.arr [Json.obj [("type", Json.null),
          ("name", Json.null), ("direction", Json.null),
          ("origin", Json.str "O"), ("destination", Json.str "D"),
          ("departure", Json.null), ("arrival", Json.null),
          ("platform", Json.null)]])]] : List Json).length
      = ([Json.obj [("LegList", Json.obj [("Leg", Json.arr
          [Json.obj [("Origin", Json.obj [("name", Json.str "O")]),
            ("Destination", Json.obj [("name", Json.str "D")])]])])]]
          : List Json).length
    ∧ List.Forall₂ (fun t record => trip_record t = .ok record)
        [Json.obj [("LegList", Json.obj [("Leg", Json.arr
          [Json.obj [("Origin", Json.obj [("name", Json.str "O")]),
            ("Destination", Json.obj [("name", Json.str "D")])]])])]]
        [Json.obj [("duration", Json.null), ("transfers", Json.num 0),
          ("legs", Json.arr [Json.obj [("type", Json.null),
            ("name", Json.null), ("direction", Json.null),
            ("origin", Json.str "O"), ("destination", Json.str "D"),
            ("departure", Json.null), ("arrival", Json.null),
            ("platform", Json.null)]])]] :=
  C3_connection_projection _ _ _ _ _ _ _ _ _ _ _ _ _ _ _
    rfl rfl rfl rfl rfl rfl rfl rfl rfl rfl rfl rfl rfl

end RMV
